import Mathlib

/-!
# Verification of the session / translation-cache subsystem

Shallow embedding of `src/core/session_manager.py` and `src/core/translator.py`
of the gaming-voice-chat-translator repository, together with proofs about the
claims of its specification.

File I/O and wall-clock time are modelled explicitly: every function that calls
`datetime.now()` receives the current time as a parameter, and file reads and
writes are modelled by explicit oracle parameters describing the outcome of the
I/O, with the written payload returned as data.
-/

namespace GamingTranslator

/-! ## Timestamps

Python `datetime` values are modelled by their calendar fields.  `isoformat`
renders `YYYY-MM-DDTHH:MM:SS` with a `.ffffff` suffix exactly when the
microsecond field is non-zero, as `datetime.isoformat()` does on the naive
`datetime.now()` values the session code creates.  `fromisoformat` is
modelled on the pre-3.11 CPython grammar
`YYYY-MM-DD[*HH[:MM[:SS[.fff[fff]]]]][±HH:MM[:SS[.fff[fff]]]]` — every
component after the hour optional, fractions of exactly three or six
digits, an optional timezone offset — together with the range checks of the
`datetime`/`timezone` constructors.
-/

structure DateTime where
  year : Nat
  month : Nat
  day : Nat
  hour : Nat
  minute : Nat
  second : Nat
  microsecond : Nat
deriving DecidableEq, Repr

/-- The numeric value of an ASCII digit character, `none` on anything else. -/
def digitVal (c : Char) : Option Nat :=
  if 48 ≤ c.toNat ∧ c.toNat ≤ 57 then some (c.toNat - 48) else none

/-- Two-digit zero-padded decimal rendering (for `n < 100`). -/
def pad2 (n : Nat) : List Char :=
  [Nat.digitChar (n / 10), Nat.digitChar (n % 10)]

/-- Four-digit zero-padded decimal rendering (for `n < 10000`). -/
def pad4 (n : Nat) : List Char :=
  pad2 (n / 100) ++ pad2 (n % 100)

/-- Six-digit zero-padded decimal rendering (for `n < 1000000`). -/
def pad6 (n : Nat) : List Char :=
  pad2 (n / 10000) ++ pad2 ((n / 100) % 100) ++ pad2 (n % 100)

/-- Read exactly two digits from the front of a character list. -/
def parse2 : List Char → Option (Nat × List Char)
  | c1 :: c2 :: rest =>
    match digitVal c1, digitVal c2 with
    | some d1, some d2 => some (d1 * 10 + d2, rest)
    | _, _ => none
  | _ => none

/-- Read exactly three digits from the front of a character list. -/
def parse3 (cs : List Char) : Option (Nat × List Char) :=
  match parse2 cs with
  | some (a, c :: rest) =>
    match digitVal c with
    | some d => some (a * 10 + d, rest)
    | none => none
  | _ => none

/-- Read exactly four digits from the front of a character list. -/
def parse4 (cs : List Char) : Option (Nat × List Char) :=
  match parse2 cs with
  | some (a, r) =>
    match parse2 r with
    | some (b, r2) => some (a * 100 + b, r2)
    | none => none
  | none => none

/-- Read exactly six digits from the front of a character list. -/
def parse6 (cs : List Char) : Option (Nat × List Char) :=
  match parse2 cs with
  | some (a, r) =>
    match parse4 r with
    | some (b, r2) => some (a * 10000 + b, r2)
    | none => none
  | none => none

/-- `calendar.isleap`: divisible by 4 and not by 100 unless by 400. -/
def isLeapYear (y : Nat) : Bool :=
  y % 4 == 0 && (y % 100 != 0 || y % 400 == 0)

/-- The number of days of a month, as enforced by the `datetime`
constructor. -/
def daysInMonth (y m : Nat) : Nat :=
  if m = 2 then (if isLeapYear y then 29 else 28)
  else if m = 4 ∨ m = 6 ∨ m = 9 ∨ m = 11 then 30
  else 31

/-- The `HH[:MM[:SS[.fff[fff]]]]` part of an ISO timestamp — every component
after the hour is optional in the pre-3.11 grammar, and a fractional part has
exactly three (milliseconds) or exactly six (microseconds) digits.  Returns
hour, minute, second and microsecond together with the unconsumed rest of the
input (a timezone suffix, or nothing). -/
def parseHMS (cs : List Char) :
    Option ((Nat × Nat × Nat × Nat) × List Char) :=
  match parse2 cs with
  | some (h, ':' :: r) =>
    match parse2 r with
    | some (mi, ':' :: r2) =>
      match parse2 r2 with
      | some (s, '.' :: fr) =>
        match parse6 fr with
        | some (us, rest) => some ((h, mi, s, us), rest)
        | none =>
          match parse3 fr with
          | some (ms, rest) => some ((h, mi, s, ms * 1000), rest)
          | none => none
      | some (s, rest) => some ((h, mi, s, 0), rest)
      | none => none
    | some (mi, rest) => some ((h, mi, 0, 0), rest)
    | none => none
  | some (h, rest) => some ((h, 0, 0, 0), rest)
  | none => none

/-- The `HH:MM[:SS[.fff[fff]]]` following the sign of a timezone suffix;
minutes are mandatory there.  Returns the magnitude of the offset in whole
seconds (the fraction, if any, only has to be well-formed; `tzinfo` is not
represented in the model). -/
def parseTzOffset (cs : List Char) : Option Nat :=
  match parse2 cs with
  | some (th, ':' :: r) =>
    match parse2 r with
    | some (tm, []) => some (th * 3600 + tm * 60)
    | some (tm, ':' :: r2) =>
      match parse2 r2 with
      | some (ts, []) => some (th * 3600 + tm * 60 + ts)
      | some (ts, '.' :: fr) =>
        match parse6 fr with
        | some (_, []) => some (th * 3600 + tm * 60 + ts)
        | _ =>
          match parse3 fr with
          | some (_, []) => some (th * 3600 + tm * 60 + ts)
          | _ => none
      | _ => none
    | _ => none
  | _ => none

/-- The complete time-of-day part of an ISO timestamp: `HH[:MM[:SS[.f]]]`
with clock fields range-checked as the `datetime` constructor does, followed
by an optional `±HH:MM[:SS[.f]]` offset, which `timezone` accepts when its
magnitude is strictly below 24 hours.  The offset makes the Python value
timezone-aware; the model keeps only the calendar/clock fields, which is all
the session code reads. -/
def parseTimeTz (cs : List Char) : Option (Nat × Nat × Nat × Nat) :=
  match parseHMS cs with
  | some ((h, mi, s, us), rest) =>
    if h ≤ 23 ∧ mi ≤ 59 ∧ s ≤ 59 then
      match rest with
      | [] => some (h, mi, s, us)
      | c :: tzCs =>
        if c = '+' ∨ c = '-' then
          match parseTzOffset tzCs with
          | some off => if off < 86400 then some (h, mi, s, us) else none
          | none => none
        else none
    else none
  | none => none

/-- Model of `datetime.isoformat()`: `YYYY-MM-DDTHH:MM:SS[.ffffff]`, the
microsecond suffix present exactly when the microsecond field is non-zero. -/
def DateTime.isoformat (d : DateTime) : String :=
  String.mk
    (pad4 d.year ++ '-' ::
      (pad2 d.month ++ '-' ::
        (pad2 d.day ++ 'T' ::
          (pad2 d.hour ++ ':' ::
            (pad2 d.minute ++ ':' ::
              (pad2 d.second ++
                (if d.microsecond = 0 then [] else '.' :: pad6 d.microsecond)))))))

/-- Model of `datetime.fromisoformat` as CPython 3.8-3.10 implements it:
the grammar `YYYY-MM-DD[*HH[:MM[:SS[.fff[fff]]]]][±HH:MM[:SS[.fff[fff]]]]`
(`*` is any single separator character), with the field ranges the
`datetime` and `timezone` constructors enforce — `1 ≤ year ≤ 9999` (the
four-digit width bounds it above), month 1-12, day within the month
(leap-year aware), hour ≤ 23, minute/second ≤ 59, offset magnitude under 24
hours.  `none` models `ValueError`.  For an offset-carrying string the real
result is timezone-aware; the model keeps its calendar/clock fields, which
are exactly what the aware value reports and all the session code reads. -/
def DateTime.fromisoformat (str : String) : Option DateTime :=
  match parse4 str.data with
  | some (y, '-' :: r) =>
    match parse2 r with
    | some (mo, '-' :: r2) =>
      match parse2 r2 with
      | some (d, rest) =>
        if 1 ≤ y ∧ 1 ≤ mo ∧ mo ≤ 12 ∧ 1 ≤ d ∧ d ≤ daysInMonth y mo then
          match rest with
          | [] => some ⟨y, mo, d, 0, 0, 0, 0⟩
          | _sep :: tr =>
            match parseTimeTz tr with
            | some (h, mi, s, us) => some ⟨y, mo, d, h, mi, s, us⟩
            | none => none
        else none
      | none => none
    | _ => none
  | _ => none


/-! ## Python dictionaries

Python `dict`s with insertion-order semantics are modelled as association
lists without duplicate keys; `alookup` is `d[k]` / `d.get(k)`. -/

/-- Association-list lookup, modelling Python `dict` indexing. -/
def alookup {α β : Type} [DecidableEq α] : List (α × β) → α → Option β
  | [], _ => none
  | (k, v) :: rest, key => if k = key then some v else alookup rest key

/-! ## `VoiceMessage` (src/core/session_manager.py lines 12-50) -/

/-- A `VoiceMessage`: the in-memory message record.  The `timestamp` field is
set from `datetime.now()` at construction and possibly overwritten by
`from_dict`. -/
structure VoiceMessage where
  text : String
  language : String
  is_outgoing : Bool
  translation : Option String
  timestamp : DateTime
deriving DecidableEq, Repr

/-- The JSON value found under `"timestamp"` in a transport record: either a
string or some non-string JSON value (number, boolean, null, ...).  Only the
string/non-string distinction matters to `from_dict`, because
`datetime.fromisoformat` raises `TypeError` on any non-string argument. -/
inductive TsVal
  | str (s : String)
  | nonstr
deriving DecidableEq, Repr

/-- A transport record: a JSON object as consumed by `VoiceMessage.from_dict`
and produced by `VoiceMessage.to_dict`.  Non-timestamp fields are modelled at
the types `to_dict` produces; `none` models an absent key (for `translation`,
absent or `null`, which `data.get` does not distinguish). -/
structure Record where
  text : Option String
  language : Option String
  is_outgoing : Option Bool
  translation : Option String
  timestamp : Option TsVal
deriving DecidableEq, Repr

/-- Python exceptions that escape the modelled code. -/
inductive PyError
  | typeError
deriving DecidableEq, Repr

/-- `VoiceMessage.to_dict`: serialize the message for transport. -/
def VoiceMessage.to_dict (m : VoiceMessage) : Record :=
  { text := some m.text
    language := some m.language
    is_outgoing := some m.is_outgoing
    translation := m.translation
    timestamp := some (TsVal.str m.timestamp.isoformat) }

/-- `VoiceMessage.from_dict`: reconstruct a message from a transport record.
`now` is the `datetime.now()` taken in the `VoiceMessage` constructor.
A present timestamp string is parsed, with `ValueError` (parse failure)
swallowed by the `except ValueError: pass`; a present non-string timestamp
makes `datetime.fromisoformat` raise `TypeError`, which that handler does not
catch, so `from_dict` itself raises. -/
def VoiceMessage.from_dict (now : DateTime) (data : Record) :
    Except PyError VoiceMessage :=
  let m : VoiceMessage :=
    { text := data.text.getD ""
      language := data.language.getD "en"
      is_outgoing := data.is_outgoing.getD false
      translation := data.translation
      timestamp := now }
  match data.timestamp with
  | none => Except.ok m
  | some (TsVal.str s) =>
    match DateTime.fromisoformat s with
    | some t => Except.ok { m with timestamp := t }
    | none => Except.ok m
  | some TsVal.nonstr => Except.error PyError.typeError

/-! ## Session state (src/core/session_manager.py lines 53-110, 627-643) -/

/-- Number of whitespace-separated words, modelling `len(text.split())`:
Python `str.split()` with no argument splits on runs of whitespace and
ignores leading/trailing whitespace, so it is the count of non-empty chunks
between whitespace characters. -/
def pyWordCount (s : String) : Nat :=
  ((s.split Char.isWhitespace).filter (fun w => w ≠ "")).length

/-- The `self.stats` dictionary of `SessionManager`. -/
structure Stats where
  total_messages : Nat
  outgoing_messages : Nat
  incoming_messages : Nat
  languages : List (String × Nat)
  word_count : Nat
deriving DecidableEq, Repr

/-- The zeroed statistics installed by `__init__` and `clear`. -/
def initStats : Stats :=
  { total_messages := 0
    outgoing_messages := 0
    incoming_messages := 0
    languages := []
    word_count := 0 }

/-- The mutable in-memory state of a `SessionManager` (the fields the claims
are about; logger, config and the auto-save timer carry no session data). -/
structure SessionState where
  messages : List VoiceMessage
  session_id : String
  start_time : DateTime
  user_languages : List (String × String)
  stats : Stats
deriving DecidableEq, Repr

/-- The language-counter update in `add_message`: if the language is not yet a
key of `stats["languages"]`, it is inserted with value 0 (at the end, per
dict insertion order), then incremented in place. -/
def bumpLang : List (String × Nat) → String → List (String × Nat)
  | [], l => [(l, 1)]
  | (k, v) :: rest, l =>
    if k = l then (k, v + 1) :: rest else (k, v) :: bumpLang rest l

/-- `stats["languages"][l]`, read as 0 when the key is absent. -/
def langCount (ls : List (String × Nat)) (l : String) : Nat :=
  (alookup ls l).getD 0

/-- `SessionManager.add_message`: append the message and update every
statistics field incrementally. -/
def add_message (st : SessionState) (m : VoiceMessage) : SessionState :=
  { st with
    messages := st.messages ++ [m]
    stats :=
      { total_messages := st.stats.total_messages + 1
        outgoing_messages :=
          st.stats.outgoing_messages + (if m.is_outgoing then 1 else 0)
        incoming_messages :=
          st.stats.incoming_messages + (if m.is_outgoing then 0 else 1)
        languages := bumpLang st.stats.languages m.language
        word_count := st.stats.word_count + pyWordCount m.text } }

/-- `datetime.strftime("%Y%m%d_%H%M%S")`, the session-id format. -/
def formatSessionId (d : DateTime) : String :=
  String.mk (pad4 d.year ++ pad2 d.month ++ pad2 d.day ++ '_' ::
    (pad2 d.hour ++ pad2 d.minute ++ pad2 d.second))

/-- `SessionManager.clear`: empty the log, zero the statistics and take a
fresh session id and start time.  The two `datetime.now()` calls it makes are
passed as `now1` (for the id) and `now2` (for the start time). -/
def SessionManager.clear (st : SessionState) (now1 now2 : DateTime) :
    SessionState :=
  { st with
    messages := []
    stats := initStats
    session_id := formatSessionId now1
    start_time := now2 }

/-! ## Loading a session (src/core/session_manager.py lines 179-209)

`load_session` is modelled as a pure step on the state: the outcome of
`open` + `json.load` is the `LoadInput` parameter.  `readError` is any
exception raised by the read or the JSON parse itself; `nonDict` is a file
holding valid JSON whose top level is not an object (then every
`session_data.get` raises `AttributeError`); `dict` is a JSON object,
restricted to records whose non-timestamp fields are well-typed where
present, which is all the claims need.  Exceptions raised after the parse are
caught by the same `except Exception` and also return `False` — but only
after some of the assignments already ran, which the model makes explicit. -/

/-- The parsed JSON object consumed by `load_session`; `none` models an
absent key. -/
structure SessionDict where
  session_id : Option String
  start_time : Option TsVal
  user_languages : Option (List (String × String))
  stats : Option Stats
  messages : Option (List Record)
deriving DecidableEq, Repr

/-- The outcome of `open(path)` + `json.load(f)` in `load_session`. -/
inductive LoadInput
  | readError
  | nonDict
  | dict (d : SessionDict)
deriving DecidableEq, Repr

/-- The message-loading loop of `load_session`: messages are appended one by
one, so a record that makes `from_dict` raise leaves the prefix in place and
the raise is caught by the outer handler (returning `False`). -/
def loadMessages (now : DateTime) (st : SessionState) :
    List Record → SessionState × Bool
  | [] => (st, true)
  | r :: rs =>
    match VoiceMessage.from_dict now r with
    | Except.ok m => loadMessages now { st with messages := st.messages ++ [m] } rs
    | Except.error _ => (st, false)

/-- `SessionManager.load_session`.  Mirrors the statement order of the
source: clear `messages`, load `session_id`, parse `start_time` (with only
`ValueError` swallowed), assign `user_languages` (defaulting to the empty
dict) and `stats` (defaulting to the current stats), then rebuild the
messages.  `now` is the `datetime.now()` used by `VoiceMessage` construction
inside `from_dict`. -/
def load_session (now : DateTime) (st : SessionState) (inp : LoadInput) :
    SessionState × Bool :=
  match inp with
  | LoadInput.readError => (st, false)
  | LoadInput.nonDict => ({ st with messages := [] }, false)
  | LoadInput.dict d =>
    let st2 : SessionState :=
      { st with
        messages := []
        session_id := d.session_id.getD st.session_id }
    match d.start_time.getD (TsVal.str st.start_time.isoformat) with
    | TsVal.nonstr => (st2, false)
    | TsVal.str s =>
      let st3 := { st2 with start_time := (DateTime.fromisoformat s).getD st2.start_time }
      let st4 := { st3 with
        user_languages := d.user_languages.getD []
        stats := d.stats.getD st.stats }
      loadMessages now st4 (d.messages.getD [])

/-! ## Saving and exporting (src/core/session_manager.py lines 144-257)

File writes are modelled by a `writeOk` oracle (whether the path resolution,
open and write succeed) together with the list of performed writes, returned
as data.  The config-derived default directory is abstracted to a relative
path; the serialized payload of `save_session` is returned explicitly. -/

/-- The `session_data` dictionary serialized by `save_session` (and by
`_export_json`). -/
structure SessionPayload where
  session_id : String
  start_time : String
  end_time : String
  stats : Stats
  user_languages : List (String × String)
  messages : List Record
deriving DecidableEq, Repr

/-- The payload `save_session` writes: metadata plus `to_dict` of every
message. -/
def sessionPayload (st : SessionState) (now : DateTime) : SessionPayload :=
  { session_id := st.session_id
    start_time := st.start_time.isoformat
    end_time := now.isoformat
    stats := st.stats
    user_languages := st.user_languages
    messages := st.messages.map VoiceMessage.to_dict }

/-- `SessionManager.save_session`: refuses (returning `False`, raising
nothing) when the message log is empty, before any path resolution or I/O;
otherwise writes the payload to the given or default path. -/
def save_session (writeOk : Bool) (st : SessionState) (now : DateTime)
    (path : Option String) : Bool × List (String × SessionPayload) :=
  if st.messages = [] then (false, [])
  else
    let p := path.getD ("session_" ++ st.session_id ++ ".json")
    if writeOk then (true, [(p, sessionPayload st now)]) else (false, [])

/-- `SessionManager.export_session`: refuses (returning `False`, raising
nothing) when the message log is empty, before any dispatch on the format;
otherwise dispatches to the per-format writer, whose I/O outcome is the
`writeOk` oracle and whose rendered output is abstracted to the written
path. -/
def export_session (writeOk : Bool) (st : SessionState) (format_type : String)
    (path : Option String) : Bool × List String :=
  if st.messages = [] then (false, [])
  else
    let ext :=
      if format_type = "txt" then ".txt"
      else if format_type = "html" then ".html"
      else if format_type = "json" then ".json"
      else if format_type = "pdf" then ".pdf"
      else if format_type = "csv" then ".csv"
      else ".txt"
    let p := path.getD ("export_" ++ st.session_id ++ ext)
    if writeOk then (true, [p]) else (false, [])

/-! ## Translators (src/core/translator.py)

Backends are modelled as oracles: the `googletrans` call
`self.translator.translate(text, src, dest)` is a function
`String → String → String → Except Unit String` (an `error` models a raised
exception), and the facade wrapped by `CachedTranslator` is a function
`String → String → String → Option String` taking `(text, target, source)`
like `BaseTranslator.translate_text`.  Each modelled call also returns how
often the backend was invoked, which is what the call-count claims are
about.  The `self.translator` attribute is non-`None` on every constructed
`GoogleTranslator`, since `__init__` re-raises when `googletrans` is
missing. -/

/-- `GoogleTranslator.translate_text`: returns `None` on empty text, returns
the text unchanged without calling the service when source and target agree
and are not `"auto"`, and otherwise calls the service, turning a raised
exception into `None`.  The second component counts service calls. -/
def GoogleTranslator.translate_text
    (translate : String → String → String → Except Unit String)
    (text target_language source_language : String) : Option String × Nat :=
  if text = "" then (none, 0)
  else if source_language = target_language ∧ source_language ≠ "auto" then
    (some text, 0)
  else
    match translate text source_language target_language with
    | Except.ok r => (some r, 1)
    | Except.error _ => (none, 1)

/-- The mutable state of a `CachedTranslator`: the `self.cache` dict, keyed
by `(text, source_language, target_language)`, and the configured
`self.cache_size`. -/
structure CacheState where
  cache : List ((String × String × String) × String)
  cache_size : Nat
deriving DecidableEq, Repr

/-- `CachedTranslator.translate_text`: `None` on empty text; on a key already
in the cache, the cached value with no base-translator call; otherwise the
base translator is called and its result is stored only when it is truthy
(non-`None` and non-empty) and the cache is strictly below `cache_size`.
Returns the result, the new state, and the number of base-translator
calls. -/
def CachedTranslator.translate_text
    (base : String → String → String → Option String) (st : CacheState)
    (text target_language source_language : String) :
    Option String × CacheState × Nat :=
  if text = "" then (none, st, 0)
  else
    let key := (text, source_language, target_language)
    match alookup st.cache key with
    | some v => (some v, st, 0)
    | none =>
      match base text target_language source_language with
      | some r =>
        if r ≠ "" ∧ st.cache.length < st.cache_size then
          (some r, { st with cache := st.cache ++ [(key, r)] }, 1)
        else (some r, st, 1)
      | none => (none, st, 1)

/-- A sequence of `translate_text` calls against one `CachedTranslator`,
each op being `(text, target_language, source_language)`. -/
def runCacheOps (base : String → String → String → Option String)
    (st : CacheState) : List (String × String × String) → CacheState
  | [] => st
  | (text, target, source) :: ops =>
    runCacheOps base
      (CachedTranslator.translate_text base st text target source).2.1 ops

/-- Modelled from the spec: `src/tests/test_translator.py` imports a
`TranslationCache` class from `gaming_translator.core.translator`, but
`src/core/translator.py` does not define it; its `get`/`get_stats` behavior
is modelled from spec section 4.1 (exact-match lookup with hit/miss counters)
and the hit-rate formula of the spec's acceptance tests.  Rational numbers
stand in for Python floats, making the spec's arithmetic exact. -/
structure TranslationCache where
  cache : List ((String × String × String) × String)
  max_size : Nat
  hits : Nat
  misses : Nat
deriving DecidableEq, Repr

/-- Modelled from the spec: `TranslationCache.get` — exact-match lookup;
`None` plus a miss-counter increment when absent, the cached value plus a
hit-counter increment when present, no other effects. -/
def TranslationCache.get (c : TranslationCache) (text source target : String) :
    Option String × TranslationCache :=
  match alookup c.cache (text, source, target) with
  | some v => (some v, { c with hits := c.hits + 1 })
  | none => (none, { c with misses := c.misses + 1 })

/-- The dictionary returned by the spec's `get_stats()`. -/
structure CacheStatsReport where
  size : Nat
  hits : Nat
  misses : Nat
  hit_rate : ℚ
deriving DecidableEq, Repr

/-- Modelled from the spec: `TranslationCache.get_stats() ->
{size, hits, misses, hit_rate}` with
`hit_rate = hits / (hits + misses) * 100`, defined as 0 when no lookup has
occurred yet. -/
def TranslationCache.get_stats (c : TranslationCache) : CacheStatsReport :=
  { size := c.cache.length
    hits := c.hits
    misses := c.misses
    hit_rate :=
      if c.hits + c.misses = 0 then 0
      else (c.hits : ℚ) / ((c.hits : ℚ) + (c.misses : ℚ)) * 100 }

/-! ## Concrete fixtures used by witnesses and counterexamples -/

/-- A sample timestamp with a non-zero microsecond field. -/
def exDate : DateTime := ⟨2024, 5, 3, 7, 8, 9, 123456⟩

/-- A sample timestamp standing in for `datetime.now()`. -/
def exDate0 : DateTime := ⟨2024, 1, 1, 0, 0, 0, 0⟩

/-- A sample outgoing message with a translation. -/
def exMsg : VoiceMessage := ⟨"hello world", "en", true, some "hola mundo", exDate⟩

/-- A sample incoming message. -/
def exMsg2 : VoiceMessage := ⟨"gg wp", "es", false, none, exDate0⟩

/-- A session state holding one message, with matching statistics. -/
def exState : SessionState :=
  ⟨[exMsg], "20240101_000000", exDate0, [("p1", "en")], ⟨1, 1, 0, [("en", 1)], 2⟩⟩

/-- A freshly initialized session state: no messages, zeroed statistics. -/
def freshState : SessionState :=
  ⟨[], "20240101_000000", exDate0, [("p1", "en")], initStats⟩

/-- A base translator that always succeeds. -/
def exBackend : String → String → String → Option String :=
  fun text _ _ => some ("X" ++ text)

/-- A base translator that returns the empty string (non-`None` but falsy). -/
def emptyResultBackend : String → String → String → Option String :=
  fun _ _ _ => some ""

/-- A `googletrans` service oracle that always succeeds. -/
def exTranslate : String → String → String → Except Unit String :=
  fun text _ _ => Except.ok ("X" ++ text)

/-- A translation cache filled to its capacity of one entry. -/
def exCacheFull : CacheState := ⟨[(("a", "en", "es"), "Xa")], 1⟩

/-- A spec-modelled `TranslationCache` with one entry, 3 hits and 2 misses. -/
def exTC : TranslationCache := ⟨[(("hello", "en", "es"), "hola")], 1000, 3, 2⟩

/-- The statistics invariant of the spec: every `stats` field is a fresh
recomputation over `messages`. -/
def statsInvariant (st : SessionState) : Prop :=
  st.stats.total_messages = st.messages.length ∧
  st.stats.outgoing_messages = st.messages.countP (fun m => m.is_outgoing) ∧
  st.stats.incoming_messages = st.messages.countP (fun m => !m.is_outgoing) ∧
  (∀ l, langCount st.stats.languages l =
    st.messages.countP (fun m => m.language == l)) ∧
  st.stats.word_count = (st.messages.map (fun m => pyWordCount m.text)).sum

/-! ## Theorems -/

theorem digitVal_digitChar (d : Nat) (h : d < 10) :
    digitVal (Nat.digitChar d) = some d := by
  interval_cases d <;> decide

theorem parse2_pad2 (n : Nat) (h : n < 100) (rest : List Char) :
    parse2 (pad2 n ++ rest) = some (n, rest) := by
  have h1 : n / 10 < 10 := by omega
  have h2 : n % 10 < 10 := by omega
  have e : n / 10 * 10 + n % 10 = n := by omega
  simp only [pad2, List.cons_append, List.nil_append, parse2,
    digitVal_digitChar _ h1, digitVal_digitChar _ h2, e]

theorem parse4_pad4 (n : Nat) (h : n < 10000) (rest : List Char) :
    parse4 (pad4 n ++ rest) = some (n, rest) := by
  have h1 : n / 100 < 100 := by omega
  have h2 : n % 100 < 100 := by omega
  have e : n / 100 * 100 + n % 100 = n := by omega
  simp only [pad4, List.append_assoc, parse4, parse2_pad2 _ h1, parse2_pad2 _ h2, e]

theorem parse6_pad6 (n : Nat) (h : n < 1000000) (rest : List Char) :
    parse6 (pad6 n ++ rest) = some (n, rest) := by
  have h1 : n / 10000 < 100 := by omega
  have h2 : (n / 100) % 100 < 100 := by omega
  have h3 : n % 100 < 100 := by omega
  have h4 : (n / 100) % 100 * 100 + n % 100 < 10000 := by omega
  simp only [pad6, List.append_assoc, parse6, parse2_pad2 _ h1]
  have : pad2 ((n / 100) % 100) ++ (pad2 (n % 100) ++ rest) =
      pad4 ((n / 100) % 100 * 100 + n % 100) ++ rest := by
    simp only [pad4, List.append_assoc]
    have e1 : ((n / 100) % 100 * 100 + n % 100) / 100 = (n / 100) % 100 := by omega
    have e2 : ((n / 100) % 100 * 100 + n % 100) % 100 = n % 100 := by omega
    rw [e1, e2]
  have e : n / 10000 * 10000 + ((n / 100) % 100 * 100 + n % 100) = n := by omega
  rw [this, parse4_pad4 _ h4]
  simp only [e]

theorem daysInMonth_le31 (y m : Nat) : daysInMonth y m ≤ 31 := by
  unfold daysInMonth
  split_ifs <;> omega

theorem parseHMS_render (h mi s us : Nat) (hh : h < 100) (hmi : mi < 100)
    (hs : s < 100) (hus : us < 1000000) :
    parseHMS (pad2 h ++ ':' ::
      (pad2 mi ++ ':' :: (pad2 s ++ (if us = 0 then [] else '.' :: pad6 us)))) =
    some ((h, mi, s, us), []) := by
  by_cases h0 : us = 0
  · subst h0
    simp only [reduceIte, parseHMS, parse2_pad2 _ hh,
      parse2_pad2 _ hmi, parse2_pad2 _ hs]
  · simp only [if_neg h0, parseHMS, parse2_pad2 _ hh, parse2_pad2 _ hmi,
      parse2_pad2 _ hs]
    rw [show pad6 us = pad6 us ++ [] from (List.append_nil _).symm,
      parse6_pad6 _ hus]

theorem parseTimeTz_render (h mi s us : Nat) (hh : h ≤ 23) (hmi : mi ≤ 59)
    (hs : s ≤ 59) (hus : us < 1000000) :
    parseTimeTz (pad2 h ++ ':' ::
      (pad2 mi ++ ':' :: (pad2 s ++ (if us = 0 then [] else '.' :: pad6 us)))) =
    some (h, mi, s, us) := by
  have h1 : h < 100 := by omega
  have h2 : mi < 100 := by omega
  have h3 : s < 100 := by omega
  simp only [parseTimeTz, parseHMS_render h mi s us h1 h2 h3 hus]
  rw [if_pos ⟨hh, hmi, hs⟩]

/-- Parsing an `isoformat` rendering recovers the original `DateTime`,
provided the fields satisfy the invariants every Python `datetime` value
satisfies (in-range calendar date, clock fields, microseconds). -/
theorem fromisoformat_isoformat (d : DateTime)
    (hy1 : 1 ≤ d.year) (hy2 : d.year < 10000)
    (hmo1 : 1 ≤ d.month) (hmo2 : d.month ≤ 12)
    (hd1 : 1 ≤ d.day) (hd2 : d.day ≤ daysInMonth d.year d.month)
    (hh : d.hour ≤ 23) (hmi : d.minute ≤ 59) (hs : d.second ≤ 59)
    (hus : d.microsecond < 1000000) :
    DateTime.fromisoformat (DateTime.isoformat d) = some d := by
  have hmo100 : d.month < 100 := by omega
  have hd100 : d.day < 100 := by
    have h31 := daysInMonth_le31 d.year d.month
    omega
  simp only [DateTime.isoformat, DateTime.fromisoformat, parse4_pad4 _ hy2,
    parse2_pad2 _ hmo100, parse2_pad2 _ hd100]
  rw [if_pos ⟨hy1, hmo1, hmo2, hd1, hd2⟩]
  simp only [parseTimeTz_render d.hour d.minute d.second d.microsecond hh hmi hs hus]
theorem alookup_bumpLang_self (ls : List (String × Nat)) (l : String) :
    alookup (bumpLang ls l) l = some ((alookup ls l).getD 0 + 1) := by
  induction ls with
  | nil => simp [bumpLang, alookup]
  | cons p rest ih =>
    obtain ⟨k, v⟩ := p
    by_cases hk : k = l
    · subst hk
      simp [bumpLang, alookup]
    · simp [bumpLang, alookup, hk, ih]

theorem alookup_bumpLang_other (ls : List (String × Nat)) (l key : String)
    (h : key ≠ l) :
    alookup (bumpLang ls l) key = alookup ls key := by
  induction ls with
  | nil => simp [bumpLang, alookup, Ne.symm h]
  | cons p rest ih =>
    obtain ⟨k, v⟩ := p
    by_cases hk : k = l
    · subst hk
      simp [bumpLang, alookup, Ne.symm h]
    · simp [bumpLang, alookup, hk, ih]

theorem langCount_bumpLang_self (ls : List (String × Nat)) (l : String) :
    langCount (bumpLang ls l) l = langCount ls l + 1 := by
  simp [langCount, alookup_bumpLang_self]

theorem langCount_bumpLang_other (ls : List (String × Nat)) (l key : String)
    (h : key ≠ l) :
    langCount (bumpLang ls l) key = langCount ls key := by
  simp [langCount, alookup_bumpLang_other ls l key h]

theorem statsInvariant_add_message (st : SessionState) (m : VoiceMessage)
    (h : statsInvariant st) : statsInvariant (add_message st m) := by
  obtain ⟨h1, h2, h3, h4, h5⟩ := h
  refine ⟨?_, ?_, ?_, ?_, ?_⟩
  · simp [add_message, h1]
  · cases hmo : m.is_outgoing <;>
      simp [add_message, h2, hmo, List.countP_append, List.countP_cons]
  · cases hmo : m.is_outgoing <;>
      simp [add_message, h3, hmo, List.countP_append, List.countP_cons]
  · intro l
    by_cases hl : l = m.language
    · rw [hl]
      simp [add_message, langCount_bumpLang_self, h4 m.language,
        List.countP_append, List.countP_cons]
    · simp [add_message, langCount_bumpLang_other _ _ _ hl, h4 l,
        List.countP_append, List.countP_cons, Ne.symm hl]
  · simp [add_message, h5]

theorem statsInvariant_foldl (msgs : List VoiceMessage) :
    ∀ st : SessionState, statsInvariant st →
      statsInvariant (msgs.foldl add_message st) := by
  induction msgs with
  | nil => intro st h; exact h
  | cons m rest ih =>
    intro st h
    exact ih (add_message st m) (statsInvariant_add_message st m h)

/-- Claim C2: starting from a fresh or cleared session (empty log, zeroed
stats), after any sequence of `add_message` calls every statistics field
equals a fresh recomputation over the message log: `total_messages` is the
log length, `outgoing_messages`/`incoming_messages` count the messages with
`is_outgoing` true/false, `languages[l]` counts the messages in language `l`
for every `l`, and `word_count` sums the whitespace-separated word counts of
the texts.  Since the sequence is arbitrary, this holds at every point of
every sequence. -/
theorem add_message_stats_invariant (st : SessionState)
    (h0 : st.messages = [] ∧ st.stats = initStats)
    (msgs : List VoiceMessage) :
    statsInvariant (msgs.foldl add_message st) := by
  apply statsInvariant_foldl
  simp [statsInvariant, h0.1, h0.2, initStats, langCount, alookup]

theorem add_message_stats_invariant_witness :
    statsInvariant ([exMsg, exMsg2].foldl add_message freshState) :=
  add_message_stats_invariant freshState ⟨rfl, rfl⟩ [exMsg, exMsg2]

/-- Claim C10: `clear()` empties the message log, resets the statistics to
zero (empty languages map), assigns a fresh session id (the
`%Y%m%d_%H%M%S` rendering of the current time) and a fresh start time, and
leaves `user_languages` exactly as it was. -/
theorem clear_resets_but_keeps_user_languages (st : SessionState)
    (now1 now2 : DateTime) :
    (SessionManager.clear st now1 now2).messages = [] ∧
    (SessionManager.clear st now1 now2).stats = initStats ∧
    (SessionManager.clear st now1 now2).session_id = formatSessionId now1 ∧
    (SessionManager.clear st now1 now2).start_time = now2 ∧
    (SessionManager.clear st now1 now2).user_languages = st.user_languages := by
  simp [SessionManager.clear]

/-- Claim C1 counterexample: the atomic replace-or-noop property fails.  A
file holding valid JSON whose top level is not an object (for example `[]`)
makes `load_session` return `False` — `session_data.get` raises
`AttributeError`, caught by the outer `except Exception` — yet the message
log was already cleared by the `self.messages = []` that runs before the
first `.get`, so the prior in-memory state is not preserved. -/
theorem load_session_not_atomic_counterexample :
    (load_session exDate0 exState LoadInput.nonDict).2 = false ∧
    (load_session exDate0 exState LoadInput.nonDict).1.messages ≠
      exState.messages := by
  constructor
  · rfl
  · decide

/-- Claim C1 (amended): `load_session` returns `False` leaving the prior
in-memory state exactly untouched when the file read or the JSON parse
itself fails; when the JSON parses but its contents are malformed
(non-object top level, non-string `start_time`, or a message record whose
timestamp is a non-string), it still returns `False` but the state may
already be partially overwritten — at minimum the message log is cleared. -/
theorem load_session_readError_noop (now : DateTime) (st : SessionState) :
    load_session now st LoadInput.readError = (st, false) := rfl

/-- Claim C7: `from_dict (to_dict m)` reproduces `text`, `language`,
`is_outgoing` and `translation` exactly, and the timestamp exactly (hence to
at least second precision), given the field invariants Python's `datetime`
constructor guarantees (`1 ≤ year ≤ 9999`, a valid calendar date, clock
fields in range, microseconds below 10^6). -/
theorem from_dict_to_dict_roundtrip (now : DateTime) (m : VoiceMessage)
    (hy1 : 1 ≤ m.timestamp.year) (hy2 : m.timestamp.year < 10000)
    (hmo1 : 1 ≤ m.timestamp.month) (hmo2 : m.timestamp.month ≤ 12)
    (hd1 : 1 ≤ m.timestamp.day)
    (hd2 : m.timestamp.day ≤ daysInMonth m.timestamp.year m.timestamp.month)
    (hh : m.timestamp.hour ≤ 23) (hmi : m.timestamp.minute ≤ 59)
    (hs : m.timestamp.second ≤ 59)
    (hus : m.timestamp.microsecond < 1000000) :
    VoiceMessage.from_dict now m.to_dict = Except.ok m := by
  simp [VoiceMessage.to_dict, VoiceMessage.from_dict,
    fromisoformat_isoformat m.timestamp hy1 hy2 hmo1 hmo2 hd1 hd2 hh hmi hs hus]

theorem from_dict_to_dict_roundtrip_witness :
    VoiceMessage.from_dict exDate0 exMsg.to_dict = Except.ok exMsg :=
  from_dict_to_dict_roundtrip exDate0 exMsg (by decide) (by decide) (by decide)
    (by decide) (by decide) (by decide) (by decide) (by decide) (by decide)
    (by decide)

/-- Claim C9: with an empty message log, `save_session` and `export_session`
return `False` (an ordinary return value, not an exception) without
performing any write, whatever the path, format and I/O outcome would have
been. -/
theorem save_export_empty_noop (writeOk : Bool) (st : SessionState)
    (now : DateTime) (path : Option String) (format_type : String)
    (h : st.messages = []) :
    save_session writeOk st now path = (false, []) ∧
    export_session writeOk st format_type path = (false, []) := by
  simp [save_session, export_session, h]

theorem save_export_empty_noop_witness :
    save_session true freshState exDate0 none = (false, []) ∧
    export_session true freshState "pdf" none = (false, []) :=
  save_export_empty_noop true freshState exDate0 none "pdf" rfl

theorem translate_text_cache_bound
    (base : String → String → String → Option String) (st : CacheState)
    (text target source : String) (h : st.cache.length ≤ st.cache_size) :
    (CachedTranslator.translate_text base st text target source).2.1.cache.length ≤
      st.cache_size ∧
    (CachedTranslator.translate_text base st text target source).2.1.cache_size =
      st.cache_size := by
  simp only [CachedTranslator.translate_text]
  by_cases htext : text = ""
  · rw [if_pos htext]
    exact ⟨h, rfl⟩
  · rw [if_neg htext]
    cases halo : alookup st.cache (text, source, target) with
    | some v => exact ⟨h, rfl⟩
    | none =>
      cases hb : base text target source with
      | none => exact ⟨h, rfl⟩
      | some r =>
        by_cases hc : r ≠ "" ∧ st.cache.length < st.cache_size
        · have hlen := hc.2
          dsimp only
          rw [if_pos hc]
          refine ⟨?_, rfl⟩
          simp only [List.length_append, List.length_cons, List.length_nil]
          omega
        · dsimp only
          rw [if_neg hc]
          exact ⟨h, rfl⟩

theorem runCacheOps_bound (base : String → String → String → Option String)
    (ops : List (String × String × String)) :
    ∀ st : CacheState, st.cache.length ≤ st.cache_size →
      (runCacheOps base st ops).cache.length ≤ st.cache_size ∧
      (runCacheOps base st ops).cache_size = st.cache_size := by
  induction ops with
  | nil => exact fun st h => ⟨h, rfl⟩
  | cons op rest ih =>
    intro st h
    obtain ⟨text, target, source⟩ := op
    have hstep := translate_text_cache_bound base st text target source h
    have hle : (CachedTranslator.translate_text base st text target source).2.1.cache.length ≤
        (CachedTranslator.translate_text base st text target source).2.1.cache_size := by
      rw [hstep.2]
      exact hstep.1
    have ihres := ih _ hle
    simp only [runCacheOps]
    exact ⟨le_trans ihres.1 (le_of_eq hstep.2), by rw [ihres.2, hstep.2]⟩

/-- Claim C3: starting from the empty cache of a fresh `CachedTranslator`
with configured capacity `cap`, no sequence of `translate_text` calls ever
makes the cache exceed `cap` entries; and once the cache is at capacity, a
call whose key is absent leaves the state completely unchanged — nothing is
stored, nothing is evicted — so a subsequent dictionary lookup of that key
still returns `None` (fill-then-freeze, not LRU). -/
theorem cache_bound_and_freeze
    (base : String → String → String → Option String) (cap : Nat)
    (ops : List (String × String × String)) (st : CacheState)
    (text target source : String)
    (hfull : st.cache.length = st.cache_size)
    (habs : alookup st.cache (text, source, target) = none) :
    (runCacheOps base ⟨[], cap⟩ ops).cache.length ≤ cap ∧
    (CachedTranslator.translate_text base st text target source).2.1 = st ∧
    alookup (CachedTranslator.translate_text base st text target source).2.1.cache
      (text, source, target) = none := by
  have hstate : (CachedTranslator.translate_text base st text target source).2.1 = st := by
    simp only [CachedTranslator.translate_text]
    by_cases htext : text = ""
    · rw [if_pos htext]
    · rw [if_neg htext, habs]
      cases hb : base text target source with
      | none => rfl
      | some r =>
        have hno : ¬(r ≠ "" ∧ st.cache.length < st.cache_size) := by
          rintro ⟨-, hlt⟩
          omega
        dsimp only
        rw [if_neg hno]
  refine ⟨(runCacheOps_bound base ops ⟨[], cap⟩ (by simp)).1, hstate, ?_⟩
  rw [hstate]
  exact habs

theorem cache_bound_and_freeze_witness :
    (runCacheOps exBackend ⟨[], 1⟩
      [("a", "es", "en"), ("b", "es", "en")]).cache.length ≤ 1 ∧
    (CachedTranslator.translate_text exBackend exCacheFull "b" "es" "en").2.1 =
      exCacheFull ∧
    alookup (CachedTranslator.translate_text exBackend exCacheFull
      "b" "es" "en").2.1.cache ("b", "en", "es") = none :=
  cache_bound_and_freeze exBackend 1 [("a", "es", "en"), ("b", "es", "en")]
    exCacheFull "b" "es" "en" (by decide) (by decide)

/-- Claim C4 (spec-modelled, since `TranslationCache` is absent from
src/core/translator.py): `get` of an absent key returns `None` and
increments only the miss counter; `get` of a present key returns the cached
value and increments only the hit counter; and for every state with `h` hits
and `m` misses, `get_stats().hit_rate` is `h / (h + m) * 100`, defined as 0
when `h + m = 0`. -/
theorem translation_cache_counters_and_hit_rate (c : TranslationCache)
    (text source target : String) :
    (alookup c.cache (text, source, target) = none →
      (c.get text source target).1 = none ∧
      (c.get text source target).2.misses = c.misses + 1 ∧
      (c.get text source target).2.hits = c.hits) ∧
    (∀ v, alookup c.cache (text, source, target) = some v →
      (c.get text source target).1 = some v ∧
      (c.get text source target).2.hits = c.hits + 1 ∧
      (c.get text source target).2.misses = c.misses) ∧
    (c.hits + c.misses = 0 → c.get_stats.hit_rate = 0) ∧
    (0 < c.hits + c.misses →
      c.get_stats.hit_rate = (c.hits : ℚ) / ((c.hits : ℚ) + (c.misses : ℚ)) * 100) := by
  refine ⟨?_, ?_, ?_, ?_⟩
  · intro habs
    simp [TranslationCache.get, habs]
  · intro v hp
    simp [TranslationCache.get, hp]
  · intro h0
    simp [TranslationCache.get_stats, h0]
  · intro hpos
    have hne : ¬(c.hits + c.misses = 0) := by omega
    simp [TranslationCache.get_stats, hne]

theorem translation_cache_counters_and_hit_rate_witness :
    ((exTC.get "hello" "en" "es").1 = some "hola" ∧
     (exTC.get "hello" "en" "es").2.hits = exTC.hits + 1 ∧
     (exTC.get "hello" "en" "es").2.misses = exTC.misses) ∧
    exTC.get_stats.hit_rate =
      (exTC.hits : ℚ) / ((exTC.hits : ℚ) + (exTC.misses : ℚ)) * 100 :=
  ⟨(translation_cache_counters_and_hit_rate exTC "hello" "en" "es").2.1 "hola"
      (by decide),
   (translation_cache_counters_and_hit_rate exTC "hello" "en" "es").2.2.2
      (by decide)⟩

/-- Claim C5: for non-empty text and a language code `lang` other than
`"auto"`, `GoogleTranslator.translate_text(text, lang, lang)` returns the
text unchanged and never invokes the underlying translation service (call
count stays 0). -/
theorem google_same_language_short_circuit
    (translate : String → String → String → Except Unit String)
    (text lang : String) (htext : text ≠ "") (hlang : lang ≠ "auto") :
    GoogleTranslator.translate_text translate text lang lang = (some text, 0) := by
  unfold GoogleTranslator.translate_text
  rw [if_neg htext, if_pos ⟨rfl, hlang⟩]

theorem google_same_language_short_circuit_witness :
    GoogleTranslator.translate_text exTranslate "hello" "en" "en" =
      (some "hello", 0) :=
  google_same_language_short_circuit exTranslate "hello" "en" (by decide)
    (by decide)

/-- Claim C6 counterexample: a non-`None` result of the wrapped facade is
not necessarily inserted into the cache.  On a miss with plenty of room,
a backend result of `""` (non-`None` but falsy) fails the code's
`if result` truthiness test: the call count is 1 (facade invoked) and the
result is `Some ""`, yet the cache stays empty. -/
theorem cached_translate_nonnone_not_inserted_counterexample :
    (CachedTranslator.translate_text emptyResultBackend ⟨[], 10⟩
      "hi" "es" "en").1 = some "" ∧
    (CachedTranslator.translate_text emptyResultBackend ⟨[], 10⟩
      "hi" "es" "en").2.2 = 1 ∧
    (CachedTranslator.translate_text emptyResultBackend ⟨[], 10⟩
      "hi" "es" "en").2.1.cache = [] := by
  refine ⟨?_, ?_, ?_⟩ <;> decide

/-- Claim C6 (amended): for a non-empty text whose key is present in the
cache, `translate_text` returns the cached value and never invokes the
wrapped facade (call count 0); on a miss the facade is invoked exactly once
and its result is returned, and that result is inserted into the cache when
it is truthy (non-`None` and non-empty) and the cache is below capacity. -/
theorem cached_translate_hit_and_miss
    (base : String → String → String → Option String) (st : CacheState)
    (text target source v r : String) (htext : text ≠ "") :
    (alookup st.cache (text, source, target) = some v →
      CachedTranslator.translate_text base st text target source =
        (some v, st, 0)) ∧
    (alookup st.cache (text, source, target) = none →
      base text target source = some r →
      (CachedTranslator.translate_text base st text target source).1 = some r ∧
      (CachedTranslator.translate_text base st text target source).2.2 = 1 ∧
      (r ≠ "" ∧ st.cache.length < st.cache_size →
        (CachedTranslator.translate_text base st text target source).2.1.cache =
          st.cache ++ [((text, source, target), r)])) := by
  constructor
  · intro hp
    simp [CachedTranslator.translate_text, htext, hp]
  · intro habs hb
    have hcore : CachedTranslator.translate_text base st text target source =
        if r ≠ "" ∧ st.cache.length < st.cache_size then
          (some r, { st with cache := st.cache ++ [((text, source, target), r)] }, 1)
        else (some r, st, 1) := by
      simp [CachedTranslator.translate_text, htext, habs, hb]
    refine ⟨?_, ?_, ?_⟩
    · rw [hcore]
      split <;> rfl
    · rw [hcore]
      split <;> rfl
    · intro hins
      rw [hcore, if_pos hins]

theorem cached_translate_hit_and_miss_witness :
    CachedTranslator.translate_text exBackend exCacheFull "a" "es" "en" =
      (some "Xa", exCacheFull, 0) :=
  (cached_translate_hit_and_miss exBackend exCacheFull "a" "es" "en" "Xa" "Xa"
    (by decide)).1 (by decide)

end GamingTranslator
